import Mathlib

/-!
Shallow embedding of the cycle orchestrator of `src/main.py` (trading-bot
scheduler), together with the guard of the presentation wrapper in
`src/bot_gui_professional.py` that invokes it.

Modelling conventions:
* Machine time (`time.time()`), confidences and scores are rationals (`ℚ`).
* A cycle's collaborator calls are functional: a `CycleEnv` record carries, for
  each collaborator port, the value that port would return (or `.error ()` when
  it would raise) during that cycle.  `run_cycle` consumes the environment
  following exactly the control flow of `src/main.py:187-320` and additionally
  records which collaborator ports it actually invoked.
* Logging is not modelled.  The periodic `get_ml_status` call
  (`src/main.py:239-242`) feeds logging only and is modelled as non-raising;
  `get_overall_stats` (`src/main.py:229`), whose value gates the cycle and which
  is not wrapped in a `try`, is modelled as fallible, and its exception is the
  representative uncaught cycle-stage exception reaching the scheduler loop.
* File-system effects of the controller are recorded as a trace of `FsOp`
  operations; `applyOps` replays a trace against a disk state.
-/

/-- Overall statistics returned by the feedback collaborator
(`get_overall_stats`, fallback shape at `src/main.py:109-110`). -/
structure Stats where
  total_trades : ℕ
  total_wins : ℕ
  total_losses : ℕ
  win_rate : ℚ
  total_pips : ℚ
deriving DecidableEq, Repr

/-- One opaque market record as returned by `read_market_data`; the
orchestrator only tests the sequence for emptiness and takes its length. -/
structure MarketRecord where
  raw : String
deriving DecidableEq, Repr

/-- Context descriptor returned by `analyze_market_context`
(fields read at `src/main.py:262-263`, for logging only). -/
structure MarketContext where
  trend : String
  volatility : String
  confidence : ℚ
  trade_allowed : Bool
deriving DecidableEq, Repr

/-- Strategy selection returned by `select_setup`
(fields read at `src/main.py:280`). -/
structure StrategySelection where
  name : String
  score : ℚ
deriving DecidableEq, Repr

/-- Signal dictionary returned by `evaluate_signal`.  Fields the orchestrator
reads with `.get` (so possibly absent) are `Option`s
(`src/main.py:294-312`). -/
structure EvalSignal where
  action : String
  confidence : Option ℚ
  sl_pips : Option ℚ
  tp_pips : Option ℚ
  setup_name : Option String
deriving DecidableEq, Repr

/-- The configuration dictionary.  Every consumer reads fields with
`dict.get(key, default)`, so each field is optional (`src/main.py:221,228,300`).
-/
structure Config where
  min_confidence : Option ℚ
  cooldown : Option ℚ
  max_daily_trades : Option ℕ
  max_losses : Option ℕ
  lot_size : Option ℚ
deriving DecidableEq, Repr

/-- Default configuration returned by `load_config` when the file is absent or
unparsable (`src/main.py:128-136`); the trading-window strings are not part of
the orchestrator state and are omitted. -/
def default_config : Config :=
  { min_confidence := some 35
    cooldown := some 5
    max_daily_trades := some 50
    max_losses := some 5
    lot_size := some (1 / 100) }

/-- State of the configuration source `bot_config.json` as seen by
`load_config`: missing file, present-but-unparsable file, or a successfully
parsed configuration. -/
inductive ConfigSource where
  | absent
  | unparsable
  | parsed (c : Config)
deriving DecidableEq, Repr

/-- Embedding of `load_config` (`src/main.py:115-136`): a parsed file is
returned as-is; a missing file or a parse error falls through to the default
dictionary. -/
def load_config : ConfigSource → Config
  | .parsed c => c
  | .absent => default_config
  | .unparsable => default_config

/-- The cycle-local mutable globals of `src/main.py:143-146`. -/
structure CycleState where
  last_trade_time : ℚ
  consecutive_losses : ℕ
  paused_until : ℚ
  cycle_count : ℕ
deriving DecidableEq, Repr

/-- Collaborator ports that `run_cycle` may invoke, in the spec's sense
(adjust config, process feedback, aggregate stats, adaptive status,
fetch market data, analyze context, select strategy, evaluate signal). -/
inductive Collab where
  | mlAdjust
  | feedback
  | stats
  | mlStatus
  | market
  | context
  | selector
  | evalSignal
deriving DecidableEq, Repr

/-- Exhaustive outcomes of one `run_cycle` call, one per `return` point of
`src/main.py:187-320`.  `statsRaised` is the one uncaught exception path
(`get_overall_stats` at line 229 is outside every `try`).  `emitted` records
the result of the post-hoc artifact verification (lines 315-318). -/
inductive CycleResult where
  | paused
  | cooldownBlocked
  | statsRaised
  | dailyCap
  | marketError
  | noData
  | contextError
  | setupError
  | noSetup
  | signalError
  | noSignal
  | actionNone
  | rejectedLowConfidence
  | emitted (verified : Bool)
deriving DecidableEq, Repr

/-- Return values that the collaborator ports would produce during one cycle;
`.error ()` models the call raising an exception.  `running` is the value of
the `RUNNING` flag as observed by the scheduler loop at the head of this
iteration (`src/main.py:362`); `reloadedConfig` is the content `load_config`
would return if the cycle reloads the configuration
(`src/main.py:199-202`). -/
structure CycleEnv where
  running : Bool
  now : ℚ
  mlAdjust : Except Unit Bool
  reloadedConfig : Config
  feedback : Except Unit Bool
  stats : Except Unit Stats
  market : Except Unit (List MarketRecord)
  context : Except Unit MarketContext
  setup : Except Unit (Option StrategySelection)
  signal : Except Unit (Option EvalSignal)
  signalFileExists : Bool

/-- Configuration in force for the body of the cycle: when the ML system is
available and `ml_auto_adjust()` returns `True`, `CONFIG` is reloaded
(`src/main.py:197-204`); an exception from `ml_auto_adjust` is swallowed at
debug level and leaves the configuration unchanged. -/
def effConfig (mlAvailable : Bool) (env : CycleEnv) (cfg : Config) : Config :=
  if mlAvailable then
    match env.mlAdjust with
    | .ok true => env.reloadedConfig
    | _ => cfg
  else cfg

/-- Cycle-count increment performed at the top of every cycle
(`src/main.py:190`). -/
def tick (st : CycleState) : CycleState :=
  { st with cycle_count := st.cycle_count + 1 }

/-- Collaborator calls made before the interlocks: ML auto-adjust (when the ML
system is available) and best-effort feedback processing
(`src/main.py:196-211`). -/
def preCalls (mlAvailable : Bool) : List Collab :=
  (if mlAvailable then [Collab.mlAdjust] else []) ++ [Collab.feedback]

/-- Collaborator calls made once all three interlocks passed: the pre-calls,
the stats query, and the periodic adaptive-status query on every tenth cycle
(`src/main.py:228-242`); `count` is the already-incremented cycle count. -/
def pre2Calls (mlAvailable : Bool) (count : ℕ) : List Collab :=
  preCalls mlAvailable ++ [Collab.stats] ++
    (if mlAvailable ∧ count % 10 = 0 then [Collab.mlStatus] else [])

/-- Result of one `run_cycle` call: updated `CONFIG`, updated cycle-local
globals, the control-flow outcome, and the list of collaborator ports the
cycle invoked, in order. -/
structure CycleOutput where
  config : Config
  state : CycleState
  result : CycleResult
  calls : List Collab
deriving Repr

/-- Embedding of `run_cycle` (`src/main.py:187-320`).  Mirrors the source
line-by-line: increment `cycle_count` (190); ML auto-adjust and optional config
reload (197-204); best-effort feedback (207-211); pause window (216-219);
cooldown (221-226); daily cap via `get_overall_stats` — a call outside any
`try`, so its exception escapes (228-232); periodic ML-status logging
(239-242); market fetch (246-254); context analysis (260-266); strategy
selection (270-278); signal evaluation (284-296); confidence gate with
`confidence = signal.get("confidence", 0)` and
`min_conf = CONFIG.get("min_confidence", 35) / 100` (298-304); emission block
with post-hoc artifact verification and unconditional
`last_trade_time = current_time` (306-320). -/
def run_cycle (mlAvailable : Bool) (env : CycleEnv) (cfg : Config)
    (st : CycleState) : CycleOutput :=
  let st1 : CycleState := tick st
  let cfg1 : Config := effConfig mlAvailable env cfg
  let pre : List Collab := preCalls mlAvailable
  if st1.paused_until > env.now then
    ⟨cfg1, st1, .paused, pre⟩
  else
    let cooldown : ℚ := cfg1.cooldown.getD 5
    if st1.last_trade_time > 0 ∧ env.now - st1.last_trade_time < cooldown then
      ⟨cfg1, st1, .cooldownBlocked, pre⟩
    else
      match env.stats with
      | .error _ => ⟨cfg1, st1, .statsRaised, pre ++ [Collab.stats]⟩
      | .ok s =>
        if s.total_trades ≥ cfg1.max_daily_trades.getD 50 then
          ⟨cfg1, st1, .dailyCap, pre ++ [Collab.stats]⟩
        else
          let pre2 : List Collab := pre2Calls mlAvailable st1.cycle_count
          match env.market with
          | .error _ => ⟨cfg1, st1, .marketError, pre2 ++ [Collab.market]⟩
          | .ok data =>
            if data.isEmpty then
              ⟨cfg1, st1, .noData, pre2 ++ [Collab.market]⟩
            else
              match env.context with
              | .error _ =>
                ⟨cfg1, st1, .contextError, pre2 ++ [Collab.market, Collab.context]⟩
              | .ok _ctx =>
                match env.setup with
                | .error _ =>
                  ⟨cfg1, st1, .setupError,
                    pre2 ++ [Collab.market, Collab.context, Collab.selector]⟩
                | .ok none =>
                  ⟨cfg1, st1, .noSetup,
                    pre2 ++ [Collab.market, Collab.context, Collab.selector]⟩
                | .ok (some _setup) =>
                  match env.signal with
                  | .error _ =>
                    ⟨cfg1, st1, .signalError,
                      pre2 ++ [Collab.market, Collab.context, Collab.selector,
                        Collab.evalSignal]⟩
                  | .ok none =>
                    ⟨cfg1, st1, .noSignal,
                      pre2 ++ [Collab.market, Collab.context, Collab.selector,
                        Collab.evalSignal]⟩
                  | .ok (some sig) =>
                    let calls : List Collab :=
                      pre2 ++ [Collab.market, Collab.context, Collab.selector,
                        Collab.evalSignal]
                    if sig.action = "NONE" then
                      ⟨cfg1, st1, .actionNone, calls⟩
                    else
                      let confidence : ℚ := sig.confidence.getD 0
                      let minConf : ℚ := cfg1.min_confidence.getD 35 / 100
                      if confidence < minConf then
                        ⟨cfg1, st1, .rejectedLowConfidence, calls⟩
                      else
                        ⟨cfg1, { st1 with last_trade_time := env.now },
                          .emitted env.signalFileExists, calls⟩

/-- True exactly when the cycle reached the emission block of
`src/main.py:306-320` (whether or not the post-hoc verification found the
artifact on disk). -/
def isEmitted : CycleResult → Bool
  | .emitted _ => true
  | _ => false

/-- Signal artifact content as written to `signal.json`; only the fields the
claims inspect are kept (the constant fields of `create_stop_signal`,
`src/main.py:165-176`). -/
structure SignalArtifact where
  action : String
  confidence : ℚ
  setup_name : String
  reason : String
deriving DecidableEq, Repr

/-- The STOP sentinel written by `create_stop_signal`
(`src/main.py:161-185`). -/
def stop_signal_artifact : SignalArtifact :=
  { action := "NONE"
    confidence := 0
    setup_name := "SYSTEM_STOP"
    reason := "Bot detenido" }

/-- File-system operations the controller performs on the two IPC
artifacts. -/
inductive FsOp where
  | writeStatus (running : Bool)
  | deleteSignal
  | writeSignal (s : SignalArtifact)
deriving DecidableEq, Repr

/-- Embedding of `write_bot_status` (`src/main.py:28-38`) as its effect on the
status artifact. -/
def write_bot_status (running : Bool) : FsOp := .writeStatus running

/-- Embedding of `clear_signal_file` (`src/main.py:150-159`) as its effect on
the signal artifact. -/
def clear_signal_file : FsOp := .deleteSignal

/-- Embedding of `create_stop_signal` (`src/main.py:161-185`) as its effect on
the signal artifact. -/
def create_stop_signal : FsOp := .writeSignal stop_signal_artifact

/-- Observable content of the two IPC artifacts: the `running` flag stored in
`bot_status.json` and the signal stored in `signal.json` (`none` when the file
is absent). -/
structure Disk where
  statusRunning : Option Bool
  signal : Option SignalArtifact
deriving DecidableEq, Repr

/-- Replay one file-system operation against a disk state (whole-file
replacement semantics, spec section 4.5). -/
def applyOp (d : Disk) : FsOp → Disk
  | .writeStatus b => { d with statusRunning := some b }
  | .deleteSignal => { d with signal := none }
  | .writeSignal s => { d with signal := some s }

/-- Replay a trace of file-system operations, oldest first. -/
def applyOps (d : Disk) (ops : List FsOp) : Disk := ops.foldl applyOp d

/-- The module-level globals of `src/main.py:141-146`: the `RUNNING` flag, the
configuration dictionary, and the cycle-local state. -/
structure Globals where
  running : Bool
  config : Config
  cyc : CycleState
deriving DecidableEq, Repr

/-- The initialization performed by `start_bot` before entering the scheduler
loop (`src/main.py:322-331`): reload `CONFIG`, set `RUNNING`, and zero
`paused_until`, `consecutive_losses` and `cycle_count`.  The source does not
reset `last_trade_time` here, so its previous value is kept. -/
def start_init (src : ConfigSource) (g : Globals) : Globals :=
  { running := true
    config := load_config src
    cyc :=
      { last_trade_time := g.cyc.last_trade_time
        consecutive_losses := 0
        paused_until := 0
        cycle_count := 0 } }

/-- Combined result of running the scheduler loop. -/
structure LoopOutput where
  config : Config
  state : CycleState
  results : List CycleResult
  ops : List FsOp
deriving Repr

/-- Embedding of the `while RUNNING:` scheduler loop of `src/main.py:362-374`.
Each iteration observes the `RUNNING` flag (the `running` field of the head
environment), rewrites the status heartbeat, and runs one cycle.  The loop
body is wrapped in `try/except Exception`, which logs, sleeps a recovery
interval and continues; hence a cycle whose result is `statsRaised` is
followed by the next iteration exactly like any other.  Exhaustion of the
environment list models external termination of the process. -/
def scheduler_loop (mlAvailable : Bool) :
    List CycleEnv → Config → CycleState → LoopOutput
  | [], cfg, st => ⟨cfg, st, [], []⟩
  | e :: es, cfg, st =>
    if e.running then
      let o := run_cycle mlAvailable e cfg st
      let rest := scheduler_loop mlAvailable es o.config o.state
      ⟨rest.config, rest.state, o.result :: rest.results,
        write_bot_status true :: rest.ops⟩
    else ⟨cfg, st, [], []⟩

/-- Unconditional sequential execution of a list of cycles (no flag checks):
the reference fold the scheduler loop is compared against. -/
def runCycles (mlAvailable : Bool) :
    List CycleEnv → Config → CycleState → Config × CycleState × List CycleResult
  | [], cfg, st => (cfg, st, [])
  | e :: es, cfg, st =>
    let o := run_cycle mlAvailable e cfg st
    let rest := runCycles mlAvailable es o.config o.state
    (rest.1, rest.2.1, o.result :: rest.2.2)

/-- The shutdown sequence executed after the scheduler loop exits
(`src/main.py:376-379`): status heartbeat with `running=False`, delete the
signal artifact, write the STOP sentinel. -/
def shutdown_ops : List FsOp :=
  [write_bot_status false, clear_signal_file, create_stop_signal]

/-- Embedding of `start_bot` (`src/main.py:322-379`): initialization, the
startup writes (status heartbeat at line 328, signal-file deletion at line
358), the scheduler loop, and the shutdown sequence.  Returns the final
globals, the list of cycle results, and the controller's file-system trace.
The final `RUNNING` value is `true` exactly when the loop never observed the
flag as false before the environment list ran out. -/
def start_bot (mlAvailable : Bool) (src : ConfigSource) (envs : List CycleEnv)
    (g : Globals) : Globals × List CycleResult × List FsOp :=
  let g1 := start_init src g
  let lo := scheduler_loop mlAvailable envs g1.config g1.cyc
  ({ running := envs.all (·.running), config := lo.config, cyc := lo.state },
    lo.results,
    [write_bot_status true, clear_signal_file] ++ lo.ops ++ shutdown_ops)

/-- Embedding of `stop_bot` (`src/main.py:381-385`): clear the `RUNNING` flag
and write a `running=False` heartbeat. -/
def stop_bot (g : Globals) : Globals × FsOp :=
  ({ g with running := false }, write_bot_status false)

/-- Embedding of the presentation wrapper `BotGUI.start_bot`
(`src/bot_gui_professional.py:1146-1160`): when the worker thread is alive it
logs a warning and returns without touching the controller; otherwise it
spawns a thread running `main.start_bot`. -/
def gui_start (threadAlive : Bool) (mlAvailable : Bool) (src : ConfigSource)
    (envs : List CycleEnv) (g : Globals) :
    Globals × List CycleResult × List FsOp :=
  if threadAlive then (g, [], [])
  else start_bot mlAvailable src envs g

/-- C9: for a missing or unparsable config source, `load_config` succeeds and
returns the default dictionary, whose numeric fields are min_confidence=35,
cooldown=5, max_daily_trades=50, max_losses=5, lot_size=0.01; hence `start_bot`
(whose initialization `start_init` is total) never fails for a missing or
corrupt configuration file. -/
theorem C9_config_defaults :
    load_config .absent = default_config ∧
    load_config .unparsable = default_config ∧
    default_config.min_confidence = some 35 ∧
    default_config.cooldown = some 5 ∧
    default_config.max_daily_trades = some 50 ∧
    default_config.max_losses = some 5 ∧
    default_config.lot_size = some (1 / 100) :=
  ⟨rfl, rfl, rfl, rfl, rfl, rfl, rfl⟩

/-- C4 counterexample: `start_bot`'s initialization does not reset
`last_trade_time`.  Starting from globals left by a previous run with
`last_trade_time = 100`, after `start_init` the field still holds 100, not 0,
refuting the claim that every CycleState field is zeroed on `start()`. -/
theorem C4_counterexample :
    (start_init .absent
      { running := false
        config := default_config
        cyc := { last_trade_time := 100, consecutive_losses := 0,
                 paused_until := 0, cycle_count := 0 } }).cyc.last_trade_time
      = 100 ∧
    ¬ (start_init .absent
      { running := false
        config := default_config
        cyc := { last_trade_time := 100, consecutive_losses := 0,
                 paused_until := 0, cycle_count := 0 } }).cyc.last_trade_time
      = 0 := by
  refine ⟨rfl, ?_⟩
  show ¬ (100 : ℚ) = 0
  norm_num

/-- C4 amended: `start_bot`'s initialization (`src/main.py:322-331`) reloads
the configuration, sets the running flag, and zeroes `consecutive_losses`,
`paused_until` and `cycle_count`, but leaves `last_trade_time` at the value
the previous run left in the module global (0 only in a fresh process). -/
theorem C4_start_reset (src : ConfigSource) (g : Globals) :
    start_init src g =
      { running := true
        config := load_config src
        cyc := { last_trade_time := g.cyc.last_trade_time
                 consecutive_losses := 0
                 paused_until := 0
                 cycle_count := 0 } } := rfl

/-- C3 counterexample: `main.start_bot` has no already-running guard.  Called
on globals with `running = true` and `cycle_count = 7`, it still resets the
cycle state (`cycle_count` becomes 1 after one loop iteration, not 7) and runs
the scheduler loop (one cycle result is produced), refuting the claim that a
second `start()` performs no reset and starts no loop. -/
theorem C3_counterexample :
    (let g : Globals :=
      { running := true
        config := default_config
        cyc := { last_trade_time := 0, consecutive_losses := 2,
                 paused_until := 0, cycle_count := 7 } }
     let e : CycleEnv :=
      { running := true, now := 0, mlAdjust := .ok false,
        reloadedConfig := default_config, feedback := .ok false,
        stats := .error (), market := .error (),
        context := .error (), setup := .ok none, signal := .ok none,
        signalFileExists := false }
     g.running = true ∧
     (start_bot false .absent [e] g).1.cyc.cycle_count = 1 ∧
     ¬ (start_bot false .absent [e] g).1.cyc.cycle_count = 7 ∧
     (start_bot false .absent [e] g).2.1 = [CycleResult.statsRaised]) := by
  refine ⟨rfl, ?_, ?_, ?_⟩ <;> decide

/-- C3 amended: the no-op-if-already-running guard lives in the presentation
wrapper, not in `main.start_bot`: when the worker thread is alive,
`BotGUI.start_bot` (`src/bot_gui_professional.py:1148-1150`) only logs a
warning and returns, leaving the controller globals untouched, running no
cycle, and performing no file-system operation. -/
theorem C3_gui_guard (mlA : Bool) (src : ConfigSource)
    (envs : List CycleEnv) (g : Globals) :
    gui_start true mlA src envs g = (g, [], []) := rfl

/-- C7: on every scheduler-loop exit, `start_bot`'s file-system trace ends
with exactly the shutdown sequence — status write with `running=false`, signal
deletion, STOP-sentinel write —, the sentinel has action "NONE" and setup_name
"SYSTEM_STOP", and replaying the shutdown sequence on any disk state leaves
the status at `running=false` and the signal artifact equal to the sentinel,
so no prior BUY/SELL signal remains on disk. -/
theorem C7_shutdown_sequence (mlA : Bool) (src : ConfigSource)
    (envs : List CycleEnv) (g : Globals) :
    (∃ pre, (start_bot mlA src envs g).2.2 = pre ++ shutdown_ops) ∧
    shutdown_ops = [FsOp.writeStatus false, FsOp.deleteSignal,
      FsOp.writeSignal stop_signal_artifact] ∧
    stop_signal_artifact.action = "NONE" ∧
    stop_signal_artifact.setup_name = "SYSTEM_STOP" ∧
    (∀ d : Disk, applyOps d (start_bot mlA src envs g).2.2 =
      { statusRunning := some false, signal := some stop_signal_artifact }) := by
  refine ⟨⟨[write_bot_status true, clear_signal_file] ++
      (scheduler_loop mlA envs (start_init src g).config
        (start_init src g).cyc).ops, ?_⟩, rfl, rfl, rfl, ?_⟩
  · simp [start_bot, List.append_assoc]
  · intro d
    simp [start_bot, applyOps, shutdown_ops, applyOp,
      write_bot_status, clear_signal_file, create_stop_signal]

/-- Helper: a cycle blocked by the pause window (`src/main.py:216-219`). -/
theorem run_cycle_paused_eq (mlA : Bool) (env : CycleEnv) (cfg : Config)
    (st : CycleState) (hp : st.paused_until > env.now) :
    run_cycle mlA env cfg st =
      ⟨effConfig mlA env cfg, tick st, .paused, preCalls mlA⟩ := by
  simp [run_cycle, tick, hp]

/-- Helper: a cycle blocked by the cooldown interlock
(`src/main.py:221-226`). -/
theorem run_cycle_cooldown_eq (mlA : Bool) (env : CycleEnv) (cfg : Config)
    (st : CycleState)
    (hp : ¬ st.paused_until > env.now)
    (hc : st.last_trade_time > 0 ∧
      env.now - st.last_trade_time < (effConfig mlA env cfg).cooldown.getD 5) :
    run_cycle mlA env cfg st =
      ⟨effConfig mlA env cfg, tick st, .cooldownBlocked, preCalls mlA⟩ := by
  simp [run_cycle, tick, hp, hc]

/-- Helper: a cycle aborted by an exception from `get_overall_stats`, which is
not wrapped in any `try` (`src/main.py:229`). -/
theorem run_cycle_stats_raised_eq (mlA : Bool) (env : CycleEnv) (cfg : Config)
    (st : CycleState) (e : Unit)
    (hp : ¬ st.paused_until > env.now)
    (hc : ¬ (st.last_trade_time > 0 ∧
      env.now - st.last_trade_time < (effConfig mlA env cfg).cooldown.getD 5))
    (hst : env.stats = Except.error e) :
    run_cycle mlA env cfg st =
      ⟨effConfig mlA env cfg, tick st, .statsRaised,
        preCalls mlA ++ [Collab.stats]⟩ := by
  simp [run_cycle, tick, hp, hc, hst]

/-- Helper: a cycle blocked by the daily-cap interlock
(`src/main.py:228-232`). -/
theorem run_cycle_daily_cap_eq (mlA : Bool) (env : CycleEnv) (cfg : Config)
    (st : CycleState) (s : Stats)
    (hp : ¬ st.paused_until > env.now)
    (hc : ¬ (st.last_trade_time > 0 ∧
      env.now - st.last_trade_time < (effConfig mlA env cfg).cooldown.getD 5))
    (hst : env.stats = Except.ok s)
    (hcap : s.total_trades ≥ (effConfig mlA env cfg).max_daily_trades.getD 50) :
    run_cycle mlA env cfg st =
      ⟨effConfig mlA env cfg, tick st, .dailyCap,
        preCalls mlA ++ [Collab.stats]⟩ := by
  simp [run_cycle, tick, hp, hc, hst, hcap]

/-- Helper: a cycle aborted by an exception from `read_market_data`
(`src/main.py:246-250`). -/
theorem run_cycle_market_error_eq (mlA : Bool) (env : CycleEnv) (cfg : Config)
    (st : CycleState) (s : Stats) (e : Unit)
    (hp : ¬ st.paused_until > env.now)
    (hc : ¬ (st.last_trade_time > 0 ∧
      env.now - st.last_trade_time < (effConfig mlA env cfg).cooldown.getD 5))
    (hst : env.stats = Except.ok s)
    (hcap : ¬ s.total_trades ≥ (effConfig mlA env cfg).max_daily_trades.getD 50)
    (hmk : env.market = Except.error e) :
    run_cycle mlA env cfg st =
      ⟨effConfig mlA env cfg, tick st, .marketError,
        pre2Calls mlA (st.cycle_count + 1) ++ [Collab.market]⟩ := by
  simp [run_cycle, tick, hp, hc, hst, hcap, hmk]

/-- Helper: a cycle aborted by an empty market-data result
(`src/main.py:252-254`). -/
theorem run_cycle_no_data_eq (mlA : Bool) (env : CycleEnv) (cfg : Config)
    (st : CycleState) (s : Stats)
    (hp : ¬ st.paused_until > env.now)
    (hc : ¬ (st.last_trade_time > 0 ∧
      env.now - st.last_trade_time < (effConfig mlA env cfg).cooldown.getD 5))
    (hst : env.stats = Except.ok s)
    (hcap : ¬ s.total_trades ≥ (effConfig mlA env cfg).max_daily_trades.getD 50)
    (hmk : env.market = Except.ok []) :
    run_cycle mlA env cfg st =
      ⟨effConfig mlA env cfg, tick st, .noData,
        pre2Calls mlA (st.cycle_count + 1) ++ [Collab.market]⟩ := by
  simp [run_cycle, tick, hp, hc, hst, hcap, hmk]

/-- Helper: a cycle aborted by an exception from `analyze_market_context`
(`src/main.py:260-266`). -/
theorem run_cycle_context_error_eq (mlA : Bool) (env : CycleEnv) (cfg : Config)
    (st : CycleState) (s : Stats) (r : MarketRecord) (d : List MarketRecord)
    (e : Unit)
    (hp : ¬ st.paused_until > env.now)
    (hc : ¬ (st.last_trade_time > 0 ∧
      env.now - st.last_trade_time < (effConfig mlA env cfg).cooldown.getD 5))
    (hst : env.stats = Except.ok s)
    (hcap : ¬ s.total_trades ≥ (effConfig mlA env cfg).max_daily_trades.getD 50)
    (hmk : env.market = Except.ok (r :: d))
    (hcx : env.context = Except.error e) :
    run_cycle mlA env cfg st =
      ⟨effConfig mlA env cfg, tick st, .contextError,
        pre2Calls mlA (st.cycle_count + 1) ++ [Collab.market, Collab.context]⟩ := by
  simp [run_cycle, tick, hp, hc, hst, hcap, hmk, hcx]

/-- Helper: a cycle aborted by an exception from the strategy selector
(`src/main.py:270-274`). -/
theorem run_cycle_setup_error_eq (mlA : Bool) (env : CycleEnv) (cfg : Config)
    (st : CycleState) (s : Stats) (r : MarketRecord) (d : List MarketRecord)
    (c : MarketContext) (e : Unit)
    (hp : ¬ st.paused_until > env.now)
    (hc : ¬ (st.last_trade_time > 0 ∧
      env.now - st.last_trade_time < (effConfig mlA env cfg).cooldown.getD 5))
    (hst : env.stats = Except.ok s)
    (hcap : ¬ s.total_trades ≥ (effConfig mlA env cfg).max_daily_trades.getD 50)
    (hmk : env.market = Except.ok (r :: d))
    (hcx : env.context = Except.ok c)
    (hsu : env.setup = Except.error e) :
    run_cycle mlA env cfg st =
      ⟨effConfig mlA env cfg, tick st, .setupError,
        pre2Calls mlA (st.cycle_count + 1) ++
          [Collab.market, Collab.context, Collab.selector]⟩ := by
  simp [run_cycle, tick, hp, hc, hst, hcap, hmk, hcx, hsu]

/-- Helper: a cycle aborted by the selector returning no strategy
(`src/main.py:276-278`). -/
theorem run_cycle_no_setup_eq (mlA : Bool) (env : CycleEnv) (cfg : Config)
    (st : CycleState) (s : Stats) (r : MarketRecord) (d : List MarketRecord)
    (c : MarketContext)
    (hp : ¬ st.paused_until > env.now)
    (hc : ¬ (st.last_trade_time > 0 ∧
      env.now - st.last_trade_time < (effConfig mlA env cfg).cooldown.getD 5))
    (hst : env.stats = Except.ok s)
    (hcap : ¬ s.total_trades ≥ (effConfig mlA env cfg).max_daily_trades.getD 50)
    (hmk : env.market = Except.ok (r :: d))
    (hcx : env.context = Except.ok c)
    (hsu : env.setup = Except.ok none) :
    run_cycle mlA env cfg st =
      ⟨effConfig mlA env cfg, tick st, .noSetup,
        pre2Calls mlA (st.cycle_count + 1) ++
          [Collab.market, Collab.context, Collab.selector]⟩ := by
  simp [run_cycle, tick, hp, hc, hst, hcap, hmk, hcx, hsu]

/-- Helper: a cycle aborted by an exception from `evaluate_signal`
(`src/main.py:284-288`). -/
theorem run_cycle_signal_error_eq (mlA : Bool) (env : CycleEnv) (cfg : Config)
    (st : CycleState) (s : Stats) (r : MarketRecord) (d : List MarketRecord)
    (c : MarketContext) (su : StrategySelection) (e : Unit)
    (hp : ¬ st.paused_until > env.now)
    (hc : ¬ (st.last_trade_time > 0 ∧
      env.now - st.last_trade_time < (effConfig mlA env cfg).cooldown.getD 5))
    (hst : env.stats = Except.ok s)
    (hcap : ¬ s.total_trades ≥ (effConfig mlA env cfg).max_daily_trades.getD 50)
    (hmk : env.market = Except.ok (r :: d))
    (hcx : env.context = Except.ok c)
    (hsu : env.setup = Except.ok (some su))
    (hsg : env.signal = Except.error e) :
    run_cycle mlA env cfg st =
      ⟨effConfig mlA env cfg, tick st, .signalError,
        pre2Calls mlA (st.cycle_count + 1) ++
          [Collab.market, Collab.context, Collab.selector, Collab.evalSignal]⟩ := by
  simp [run_cycle, tick, hp, hc, hst, hcap, hmk, hcx, hsu, hsg]

/-- Helper: a cycle aborted by `evaluate_signal` returning `None`
(`src/main.py:290-292`). -/
theorem run_cycle_no_signal_eq (mlA : Bool) (env : CycleEnv) (cfg : Config)
    (st : CycleState) (s : Stats) (r : MarketRecord) (d : List MarketRecord)
    (c : MarketContext) (su : StrategySelection)
    (hp : ¬ st.paused_until > env.now)
    (hc : ¬ (st.last_trade_time > 0 ∧
      env.now - st.last_trade_time < (effConfig mlA env cfg).cooldown.getD 5))
    (hst : env.stats = Except.ok s)
    (hcap : ¬ s.total_trades ≥ (effConfig mlA env cfg).max_daily_trades.getD 50)
    (hmk : env.market = Except.ok (r :: d))
    (hcx : env.context = Except.ok c)
    (hsu : env.setup = Except.ok (some su))
    (hsg : env.signal = Except.ok none) :
    run_cycle mlA env cfg st =
      ⟨effConfig mlA env cfg, tick st, .noSignal,
        pre2Calls mlA (st.cycle_count + 1) ++
          [Collab.market, Collab.context, Collab.selector, Collab.evalSignal]⟩ := by
  simp [run_cycle, tick, hp, hc, hst, hcap, hmk, hcx, hsu, hsg]

/-- Helper: a cycle aborted because the produced signal has action NONE
(`src/main.py:294-296`). -/
theorem run_cycle_action_none_eq (mlA : Bool) (env : CycleEnv) (cfg : Config)
    (st : CycleState) (s : Stats) (r : MarketRecord) (d : List MarketRecord)
    (c : MarketContext) (su : StrategySelection) (sg : EvalSignal)
    (hp : ¬ st.paused_until > env.now)
    (hc : ¬ (st.last_trade_time > 0 ∧
      env.now - st.last_trade_time < (effConfig mlA env cfg).cooldown.getD 5))
    (hst : env.stats = Except.ok s)
    (hcap : ¬ s.total_trades ≥ (effConfig mlA env cfg).max_daily_trades.getD 50)
    (hmk : env.market = Except.ok (r :: d))
    (hcx : env.context = Except.ok c)
    (hsu : env.setup = Except.ok (some su))
    (hsg : env.signal = Except.ok (some sg))
    (ha : sg.action = "NONE") :
    run_cycle mlA env cfg st =
      ⟨effConfig mlA env cfg, tick st, .actionNone,
        pre2Calls mlA (st.cycle_count + 1) ++
          [Collab.market, Collab.context, Collab.selector, Collab.evalSignal]⟩ := by
  simp [run_cycle, tick, hp, hc, hst, hcap, hmk, hcx, hsu, hsg, ha]

/-- Helper: a cycle rejected by the confidence gate
(`src/main.py:298-304`). -/
theorem run_cycle_rejected_eq (mlA : Bool) (env : CycleEnv) (cfg : Config)
    (st : CycleState) (s : Stats) (r : MarketRecord) (d : List MarketRecord)
    (c : MarketContext) (su : StrategySelection) (sg : EvalSignal)
    (hp : ¬ st.paused_until > env.now)
    (hc : ¬ (st.last_trade_time > 0 ∧
      env.now - st.last_trade_time < (effConfig mlA env cfg).cooldown.getD 5))
    (hst : env.stats = Except.ok s)
    (hcap : ¬ s.total_trades ≥ (effConfig mlA env cfg).max_daily_trades.getD 50)
    (hmk : env.market = Except.ok (r :: d))
    (hcx : env.context = Except.ok c)
    (hsu : env.setup = Except.ok (some su))
    (hsg : env.signal = Except.ok (some sg))
    (ha : ¬ sg.action = "NONE")
    (hcf : sg.confidence.getD 0 <
      (effConfig mlA env cfg).min_confidence.getD 35 / 100) :
    run_cycle mlA env cfg st =
      ⟨effConfig mlA env cfg, tick st, .rejectedLowConfidence,
        pre2Calls mlA (st.cycle_count + 1) ++
          [Collab.market, Collab.context, Collab.selector, Collab.evalSignal]⟩ := by
  simp [run_cycle, tick, hp, hc, hst, hcap, hmk, hcx, hsu, hsg, ha, hcf]

/-- Helper: a cycle that reaches the emission block
(`src/main.py:306-320`): `last_trade_time` is set to the cycle's `now`
regardless of the post-hoc artifact verification, whose outcome only
parametrizes the result. -/
theorem run_cycle_emit_eq (mlA : Bool) (env : CycleEnv) (cfg : Config)
    (st : CycleState) (s : Stats) (r : MarketRecord) (d : List MarketRecord)
    (c : MarketContext) (su : StrategySelection) (sg : EvalSignal)
    (hp : ¬ st.paused_until > env.now)
    (hc : ¬ (st.last_trade_time > 0 ∧
      env.now - st.last_trade_time < (effConfig mlA env cfg).cooldown.getD 5))
    (hst : env.stats = Except.ok s)
    (hcap : ¬ s.total_trades ≥ (effConfig mlA env cfg).max_daily_trades.getD 50)
    (hmk : env.market = Except.ok (r :: d))
    (hcx : env.context = Except.ok c)
    (hsu : env.setup = Except.ok (some su))
    (hsg : env.signal = Except.ok (some sg))
    (ha : ¬ sg.action = "NONE")
    (hcf : ¬ sg.confidence.getD 0 <
      (effConfig mlA env cfg).min_confidence.getD 35 / 100) :
    run_cycle mlA env cfg st =
      ⟨effConfig mlA env cfg, { tick st with last_trade_time := env.now },
        .emitted env.signalFileExists,
        pre2Calls mlA (st.cycle_count + 1) ++
          [Collab.market, Collab.context, Collab.selector, Collab.evalSignal]⟩ := by
  simp [run_cycle, tick, hp, hc, hst, hcap, hmk, hcx, hsu, hsg, ha, hcf]

/-- Helper: the cycle reaches the emission block iff the pause, cooldown and
daily-cap interlocks all pass (the stats query succeeding), market data is
non-empty, context analysis, strategy selection and signal evaluation all
succeed with a selected strategy and a produced signal, the signal's action is
not NONE, and its (defaulted) confidence clears `min_confidence / 100`. -/
theorem run_cycle_emitted_iff (mlA : Bool) (env : CycleEnv) (cfg : Config)
    (st : CycleState) :
    isEmitted (run_cycle mlA env cfg st).result = true ↔
      (¬ st.paused_until > env.now ∧
       ¬ (st.last_trade_time > 0 ∧
          env.now - st.last_trade_time < (effConfig mlA env cfg).cooldown.getD 5) ∧
       (∃ s, env.stats = Except.ok s ∧
          s.total_trades < (effConfig mlA env cfg).max_daily_trades.getD 50) ∧
       (∃ d, env.market = Except.ok d ∧ d ≠ []) ∧
       (∃ c, env.context = Except.ok c) ∧
       (∃ su, env.setup = Except.ok (some su)) ∧
       (∃ sg, env.signal = Except.ok (some sg) ∧ sg.action ≠ "NONE" ∧
          (effConfig mlA env cfg).min_confidence.getD 35 / 100 ≤
            sg.confidence.getD 0)) := by
  constructor
  · intro h
    by_cases hp : st.paused_until > env.now
    · rw [run_cycle_paused_eq mlA env cfg st hp] at h
      simp [isEmitted] at h
    by_cases hc : st.last_trade_time > 0 ∧
        env.now - st.last_trade_time < (effConfig mlA env cfg).cooldown.getD 5
    · rw [run_cycle_cooldown_eq mlA env cfg st hp hc] at h
      simp [isEmitted] at h
    rcases hst : env.stats with e | s
    · rw [run_cycle_stats_raised_eq mlA env cfg st e hp hc hst] at h
      simp [isEmitted] at h
    by_cases hcap : s.total_trades ≥
        (effConfig mlA env cfg).max_daily_trades.getD 50
    · rw [run_cycle_daily_cap_eq mlA env cfg st s hp hc hst hcap] at h
      simp [isEmitted] at h
    rcases hmk : env.market with e2 | d
    · rw [run_cycle_market_error_eq mlA env cfg st s e2 hp hc hst hcap hmk] at h
      simp [isEmitted] at h
    rcases d with _ | ⟨r, d⟩
    · rw [run_cycle_no_data_eq mlA env cfg st s hp hc hst hcap hmk] at h
      simp [isEmitted] at h
    rcases hcx : env.context with e3 | c
    · rw [run_cycle_context_error_eq mlA env cfg st s r d e3
        hp hc hst hcap hmk hcx] at h
      simp [isEmitted] at h
    rcases hsu : env.setup with e4 | osu
    · rw [run_cycle_setup_error_eq mlA env cfg st s r d c e4
        hp hc hst hcap hmk hcx hsu] at h
      simp [isEmitted] at h
    rcases osu with _ | su
    · rw [run_cycle_no_setup_eq mlA env cfg st s r d c
        hp hc hst hcap hmk hcx hsu] at h
      simp [isEmitted] at h
    rcases hsg : env.signal with e5 | osg
    · rw [run_cycle_signal_error_eq mlA env cfg st s r d c su e5
        hp hc hst hcap hmk hcx hsu hsg] at h
      simp [isEmitted] at h
    rcases osg with _ | sg
    · rw [run_cycle_no_signal_eq mlA env cfg st s r d c su
        hp hc hst hcap hmk hcx hsu hsg] at h
      simp [isEmitted] at h
    by_cases ha : sg.action = "NONE"
    · rw [run_cycle_action_none_eq mlA env cfg st s r d c su sg
        hp hc hst hcap hmk hcx hsu hsg ha] at h
      simp [isEmitted] at h
    by_cases hcf : sg.confidence.getD 0 <
        (effConfig mlA env cfg).min_confidence.getD 35 / 100
    · rw [run_cycle_rejected_eq mlA env cfg st s r d c su sg
        hp hc hst hcap hmk hcx hsu hsg ha hcf] at h
      simp [isEmitted] at h
    exact ⟨hp, hc, ⟨s, rfl, lt_of_not_ge hcap⟩, ⟨r :: d, rfl, by simp⟩,
      ⟨c, rfl⟩, ⟨su, rfl⟩, ⟨sg, rfl, ha, le_of_not_lt hcf⟩⟩
  · rintro ⟨hp, hc, ⟨s, hst, hcap⟩, ⟨d, hmk, hd⟩, ⟨c, hcx⟩, ⟨su, hsu⟩,
      ⟨sg, hsg, ha, hcf⟩⟩
    rcases d with _ | ⟨r, d⟩
    · exact absurd rfl hd
    rw [run_cycle_emit_eq mlA env cfg st s r d c su sg hp hc hst
      (not_le.mpr hcap) hmk hcx hsu hsg ha (not_lt.mpr hcf)]
    simp [isEmitted]

/-- Helper: every cycle either keeps the state at `tick st` (all skip, abort
and rejection paths) or reaches the emission block and additionally sets
`last_trade_time := env.now`. -/
theorem run_cycle_state_cases (mlA : Bool) (env : CycleEnv) (cfg : Config)
    (st : CycleState) :
    (isEmitted (run_cycle mlA env cfg st).result = false ∧
      (run_cycle mlA env cfg st).state = tick st) ∨
    (isEmitted (run_cycle mlA env cfg st).result = true ∧
      (run_cycle mlA env cfg st).state =
        { tick st with last_trade_time := env.now }) := by
  by_cases hp : st.paused_until > env.now
  · rw [run_cycle_paused_eq mlA env cfg st hp]; simp [isEmitted]
  by_cases hc : st.last_trade_time > 0 ∧
      env.now - st.last_trade_time < (effConfig mlA env cfg).cooldown.getD 5
  · rw [run_cycle_cooldown_eq mlA env cfg st hp hc]; simp [isEmitted]
  rcases hst : env.stats with e | s
  · rw [run_cycle_stats_raised_eq mlA env cfg st e hp hc hst]; simp [isEmitted]
  by_cases hcap : s.total_trades ≥
      (effConfig mlA env cfg).max_daily_trades.getD 50
  · rw [run_cycle_daily_cap_eq mlA env cfg st s hp hc hst hcap]
    simp [isEmitted]
  rcases hmk : env.market with e2 | d
  · rw [run_cycle_market_error_eq mlA env cfg st s e2 hp hc hst hcap hmk]
    simp [isEmitted]
  rcases d with _ | ⟨r, d⟩
  · rw [run_cycle_no_data_eq mlA env cfg st s hp hc hst hcap hmk]
    simp [isEmitted]
  rcases hcx : env.context with e3 | c
  · rw [run_cycle_context_error_eq mlA env cfg st s r d e3
      hp hc hst hcap hmk hcx]
    simp [isEmitted]
  rcases hsu : env.setup with e4 | osu
  · rw [run_cycle_setup_error_eq mlA env cfg st s r d c e4
      hp hc hst hcap hmk hcx hsu]
    simp [isEmitted]
  rcases osu with _ | su
  · rw [run_cycle_no_setup_eq mlA env cfg st s r d c
      hp hc hst hcap hmk hcx hsu]
    simp [isEmitted]
  rcases hsg : env.signal with e5 | osg
  · rw [run_cycle_signal_error_eq mlA env cfg st s r d c su e5
      hp hc hst hcap hmk hcx hsu hsg]
    simp [isEmitted]
  rcases osg with _ | sg
  · rw [run_cycle_no_signal_eq mlA env cfg st s r d c su
      hp hc hst hcap hmk hcx hsu hsg]
    simp [isEmitted]
  by_cases ha : sg.action = "NONE"
  · rw [run_cycle_action_none_eq mlA env cfg st s r d c su sg
      hp hc hst hcap hmk hcx hsu hsg ha]
    simp [isEmitted]
  by_cases hcf : sg.confidence.getD 0 <
      (effConfig mlA env cfg).min_confidence.getD 35 / 100
  · rw [run_cycle_rejected_eq mlA env cfg st s r d c su sg
      hp hc hst hcap hmk hcx hsu hsg ha hcf]
    simp [isEmitted]
  rw [run_cycle_emit_eq mlA env cfg st s r d c su sg
    hp hc hst hcap hmk hcx hsu hsg ha hcf]
  simp [isEmitted]

/-- Concrete market record used to evaluate theorems at explicit inputs. -/
def sample_record : MarketRecord := { raw := "EURUSD,M5,1.0842" }

/-- Concrete context descriptor used to evaluate theorems at explicit
inputs. -/
def sample_context : MarketContext :=
  { trend := "UP", volatility := "LOW", confidence := 7 / 10,
    trade_allowed := true }

/-- Concrete strategy selection used to evaluate theorems at explicit
inputs. -/
def sample_setup : StrategySelection :=
  { name := "trend_follow", score := 9 / 10 }

/-- Concrete produced signal used to evaluate theorems at explicit inputs. -/
def sample_signal : EvalSignal :=
  { action := "BUY", confidence := some (8 / 10), sl_pips := some 15,
    tp_pips := some 30, setup_name := some "trend_follow" }

/-- Concrete stats answer used to evaluate theorems at explicit inputs. -/
def sample_stats : Stats :=
  { total_trades := 3, total_wins := 2, total_losses := 1,
    win_rate := 2 / 3, total_pips := 12 }

/-- Cycle state with all fields zero, as after process start. -/
def fresh_state : CycleState :=
  { last_trade_time := 0, consecutive_losses := 0, paused_until := 0,
    cycle_count := 0 }

/-- Cycle state inside an active pause window relative to `sample_env`. -/
def paused_state : CycleState :=
  { last_trade_time := 0, consecutive_losses := 0, paused_until := 50,
    cycle_count := 0 }

/-- Environment of a fully successful cycle: every collaborator succeeds and
the signal artifact is found on disk afterwards. -/
def sample_env : CycleEnv :=
  { running := true, now := 10, mlAdjust := Except.ok false,
    reloadedConfig := default_config, feedback := Except.ok true,
    stats := Except.ok sample_stats, market := Except.ok [sample_record],
    context := Except.ok sample_context,
    setup := Except.ok (some sample_setup),
    signal := Except.ok (some sample_signal), signalFileExists := true }

/-- Like `sample_env` but the post-hoc artifact verification fails. -/
def env_no_artifact : CycleEnv := { sample_env with signalFileExists := false }

/-- A produced BUY signal whose dictionary lacks the confidence key. -/
def sig_no_confidence : EvalSignal := { sample_signal with confidence := none }

/-- Like `sample_env` but the produced signal lacks the confidence key. -/
def env_missing_confidence : CycleEnv :=
  { sample_env with signal := Except.ok (some sig_no_confidence) }

/-- Stats answer sitting exactly at a daily cap of 20. -/
def stats_at_cap : Stats := { sample_stats with total_trades := 20 }

/-- Like `sample_env` but the stats collaborator reports 20 trades. -/
def env_at_cap : CycleEnv :=
  { sample_env with stats := Except.ok stats_at_cap }

/-- Configuration with `max_daily_trades` set to 20. -/
def cfg_cap20 : Config := { default_config with max_daily_trades := some 20 }

/-- C1: a cycle reaches the emission point (the signal is accepted rather
than aborted) iff the pause-window, cooldown and daily-cap interlocks all
pass, market data is non-empty, context analysis and strategy selection
succeed with a selected strategy, a signal is produced with action ≠ NONE,
and the signal's confidence (0 when the key is absent) is at least
`min_confidence / 100` of the configuration in force. -/
theorem C1_emission_iff (mlA : Bool) (env : CycleEnv) (cfg : Config)
    (st : CycleState) :
    isEmitted (run_cycle mlA env cfg st).result = true ↔
      (¬ st.paused_until > env.now ∧
       ¬ (st.last_trade_time > 0 ∧
          env.now - st.last_trade_time < (effConfig mlA env cfg).cooldown.getD 5) ∧
       (∃ s, env.stats = Except.ok s ∧
          s.total_trades < (effConfig mlA env cfg).max_daily_trades.getD 50) ∧
       (∃ d, env.market = Except.ok d ∧ d ≠ []) ∧
       (∃ c, env.context = Except.ok c) ∧
       (∃ su, env.setup = Except.ok (some su)) ∧
       (∃ sg, env.signal = Except.ok (some sg) ∧ sg.action ≠ "NONE" ∧
          (effConfig mlA env cfg).min_confidence.getD 35 / 100 ≤
            sg.confidence.getD 0)) :=
  run_cycle_emitted_iff mlA env cfg st

/-- C2 counterexample: in a cycle whose pause window is active, CycleState is
not unchanged and collaborators are still invoked: `cycle_count` is
incremented before the pause check, and the ML-adjust and feedback
collaborators run before it (`src/main.py:190-219`). -/
theorem C2_counterexample :
    paused_state.paused_until > sample_env.now ∧
    (run_cycle true sample_env default_config paused_state).state.cycle_count
      = paused_state.cycle_count + 1 ∧
    ¬ (run_cycle true sample_env default_config paused_state).state.cycle_count
      = paused_state.cycle_count ∧
    (run_cycle true sample_env default_config paused_state).calls
      = [Collab.mlAdjust, Collab.feedback] := by
  refine ⟨?_, ?_, ?_, ?_⟩ <;> decide

/-- C2 (amended): in a cycle whose pause window is active, the cycle returns
at the pause interlock, so the stats, market-data, context, selector and
evaluate-signal collaborators are not invoked and `last_trade_time`,
`consecutive_losses` and `paused_until` are unchanged; however `cycle_count`
is incremented, and the ML-adjust and feedback collaborators have already
been invoked before the pause check. -/
theorem C2_pause_frame (mlA : Bool) (env : CycleEnv) (cfg : Config)
    (st : CycleState) (hp : st.paused_until > env.now) :
    (run_cycle mlA env cfg st).result = CycleResult.paused ∧
    (run_cycle mlA env cfg st).state.last_trade_time = st.last_trade_time ∧
    (run_cycle mlA env cfg st).state.consecutive_losses = st.consecutive_losses ∧
    (run_cycle mlA env cfg st).state.paused_until = st.paused_until ∧
    (run_cycle mlA env cfg st).state.cycle_count = st.cycle_count + 1 ∧
    (run_cycle mlA env cfg st).calls = preCalls mlA ∧
    Collab.stats ∉ (run_cycle mlA env cfg st).calls ∧
    Collab.market ∉ (run_cycle mlA env cfg st).calls ∧
    Collab.context ∉ (run_cycle mlA env cfg st).calls ∧
    Collab.selector ∉ (run_cycle mlA env cfg st).calls ∧
    Collab.evalSignal ∉ (run_cycle mlA env cfg st).calls := by
  rw [run_cycle_paused_eq mlA env cfg st hp]
  refine ⟨rfl, rfl, rfl, rfl, rfl, rfl, ?_, ?_, ?_, ?_, ?_⟩ <;>
    cases mlA <;> simp [preCalls]

/-- Witness for C2 (amended) at explicit inputs. -/
theorem C2_pause_frame_witness :
    paused_state.paused_until > sample_env.now ∧
    (run_cycle true sample_env default_config paused_state).result
      = CycleResult.paused :=
  ⟨by decide,
    (C2_pause_frame true sample_env default_config paused_state (by decide)).1⟩

/-- C5 counterexample: a cycle passing the confidence gate whose post-hoc
artifact verification fails (`signal.json` missing, result
`emitted false`) still updates `last_trade_time` to the cycle's `now`
(`src/main.py:315-320`), refuting the claim that a failed verification leaves
`last_trade_time` unchanged. -/
theorem C5_counterexample :
    (run_cycle true env_no_artifact default_config fresh_state).result
      = CycleResult.emitted false ∧
    (run_cycle true env_no_artifact default_config fresh_state).state.last_trade_time
      = env_no_artifact.now ∧
    ¬ (run_cycle true env_no_artifact default_config fresh_state).state.last_trade_time
      = fresh_state.last_trade_time := by
  have h := run_cycle_emit_eq true env_no_artifact default_config fresh_state
    sample_stats sample_record [] sample_context sample_setup sample_signal
    (by decide) (by decide) rfl (by decide) rfl rfl rfl rfl (by decide)
    (by norm_num [sample_signal, effConfig, env_no_artifact, sample_env,
      default_config])
  rw [h]
  exact ⟨rfl, rfl, by decide⟩

/-- C5 (amended): `last_trade_time` is set to the cycle's current time exactly
in the cycles that reach the emission point (pass the confidence gate); the
post-hoc artifact verification only chooses between logging success and error
and does not guard the update.  Every skipping, aborting or rejected cycle
leaves `last_trade_time` unchanged. -/
theorem C5_last_trade_update (mlA : Bool) (env : CycleEnv) (cfg : Config)
    (st : CycleState) :
    (run_cycle mlA env cfg st).state.last_trade_time =
      (if isEmitted (run_cycle mlA env cfg st).result = true then env.now
       else st.last_trade_time) := by
  rcases run_cycle_state_cases mlA env cfg st with ⟨h1, h2⟩ | ⟨h1, h2⟩ <;>
    simp [h1, h2, tick]

/-- C6: whenever the stats collaborator reports `total_trades` at or above
`max_daily_trades` (equality included), the market-data fetch collaborator is
never invoked in that cycle, and if the pause and cooldown interlocks pass
the cycle aborts with the daily-cap result before the pipeline
(`src/main.py:228-232`). -/
theorem C6_daily_cap (mlA : Bool) (env : CycleEnv) (cfg : Config)
    (st : CycleState) (s : Stats)
    (hst : env.stats = Except.ok s)
    (hcap : s.total_trades ≥ (effConfig mlA env cfg).max_daily_trades.getD 50) :
    Collab.market ∉ (run_cycle mlA env cfg st).calls ∧
    (¬ st.paused_until > env.now →
      ¬ (st.last_trade_time > 0 ∧
        env.now - st.last_trade_time < (effConfig mlA env cfg).cooldown.getD 5) →
      (run_cycle mlA env cfg st).result = CycleResult.dailyCap) := by
  by_cases hp : st.paused_until > env.now
  · rw [run_cycle_paused_eq mlA env cfg st hp]
    exact ⟨by cases mlA <;> simp [preCalls], fun h => absurd hp h⟩
  by_cases hc : st.last_trade_time > 0 ∧
      env.now - st.last_trade_time < (effConfig mlA env cfg).cooldown.getD 5
  · rw [run_cycle_cooldown_eq mlA env cfg st hp hc]
    exact ⟨by cases mlA <;> simp [preCalls], fun _ h => absurd hc h⟩
  · rw [run_cycle_daily_cap_eq mlA env cfg st s hp hc hst hcap]
    exact ⟨by cases mlA <;> simp [preCalls], fun _ _ => rfl⟩

/-- Witness for C6 at the spec's Scenario C inputs: total_trades = 20,
max_daily_trades = 20. -/
theorem C6_daily_cap_witness :
    env_at_cap.stats = Except.ok stats_at_cap ∧
    stats_at_cap.total_trades ≥
      (effConfig true env_at_cap cfg_cap20).max_daily_trades.getD 50 ∧
    Collab.market ∉ (run_cycle true env_at_cap cfg_cap20 fresh_state).calls ∧
    (run_cycle true env_at_cap cfg_cap20 fresh_state).result
      = CycleResult.dailyCap :=
  have h := C6_daily_cap true env_at_cap cfg_cap20 fresh_state stats_at_cap
    rfl (by decide)
  ⟨rfl, by decide, h.1, h.2 (by decide) (by decide)⟩

/-- C10: when the evaluate-signal collaborator returns a signal whose action
is not NONE but which lacks the confidence key, the gate reads the confidence
as 0 (`signal.get("confidence", 0)`, `src/main.py:299`), so whenever the
configured `min_confidence` is positive the cycle does not reach the emission
point and `last_trade_time` is unchanged. -/
theorem C10_missing_confidence (mlA : Bool) (env : CycleEnv) (cfg : Config)
    (st : CycleState) (sg : EvalSignal)
    (hsg : env.signal = Except.ok (some sg))
    (_ha : sg.action ≠ "NONE")
    (hcf : sg.confidence = none)
    (hmin : (effConfig mlA env cfg).min_confidence.getD 35 > 0) :
    isEmitted (run_cycle mlA env cfg st).result = false ∧
    (run_cycle mlA env cfg st).state.last_trade_time = st.last_trade_time := by
  have hnot : ¬ isEmitted (run_cycle mlA env cfg st).result = true := by
    intro h
    rcases (run_cycle_emitted_iff mlA env cfg st).mp h with
      ⟨-, -, -, -, -, -, sg2, hsg2, -, hge⟩
    rw [hsg] at hsg2
    have hsg3 : sg = sg2 := by
      injection hsg2 with h2
      injection h2
    rw [← hsg3, hcf] at hge
    simp only [Option.getD_none] at hge
    have hpos : (0 : ℚ) < (effConfig mlA env cfg).min_confidence.getD 35 / 100 := by
      positivity
    linarith
  have hfalse : isEmitted (run_cycle mlA env cfg st).result = false := by
    cases hE : isEmitted (run_cycle mlA env cfg st).result
    · rfl
    · exact absurd hE hnot
  refine ⟨hfalse, ?_⟩
  rcases run_cycle_state_cases mlA env cfg st with ⟨h1, h2⟩ | ⟨h1, h2⟩
  · simp [h2, tick]
  · exact absurd h1 hnot

/-- Witness for C10 at explicit inputs: a BUY signal without a confidence key
against the default configuration. -/
theorem C10_missing_confidence_witness :
    env_missing_confidence.signal = Except.ok (some sig_no_confidence) ∧
    sig_no_confidence.action ≠ "NONE" ∧
    sig_no_confidence.confidence = none ∧
    (effConfig true env_missing_confidence default_config).min_confidence.getD 35 > 0 ∧
    isEmitted (run_cycle true env_missing_confidence default_config fresh_state).result
      = false :=
  ⟨rfl, by decide, rfl, by decide,
    (C10_missing_confidence true env_missing_confidence default_config
      fresh_state sig_no_confidence rfl (by decide) rfl (by decide)).1⟩

/-- Helper: unconditional execution produces one result per environment. -/
theorem runCycles_length (mlA : Bool) (envs : List CycleEnv) (cfg : Config)
    (st : CycleState) :
    (runCycles mlA envs cfg st).2.2.length = envs.length := by
  induction envs generalizing cfg st with
  | nil => rfl
  | cons e es ih => simp [runCycles, ih]

/-- C8: the scheduler loop is crash-resistant: it behaves exactly like the
unconditional sequential execution of the cycles whose head flag is still
true — in particular a cycle aborted by an uncaught stage exception
(`statsRaised`) is logged and followed by the next iteration like any other —
and it stops exactly at the first iteration that observes the running flag
false (`src/main.py:362-374`). -/
theorem C8_loop_crash_resistant (mlA : Bool) (envs : List CycleEnv)
    (cfg : Config) (st : CycleState) :
    (scheduler_loop mlA envs cfg st).config =
        (runCycles mlA (envs.takeWhile (·.running)) cfg st).1 ∧
    (scheduler_loop mlA envs cfg st).state =
        (runCycles mlA (envs.takeWhile (·.running)) cfg st).2.1 ∧
    (scheduler_loop mlA envs cfg st).results =
        (runCycles mlA (envs.takeWhile (·.running)) cfg st).2.2 ∧
    (scheduler_loop mlA envs cfg st).results.length =
        (envs.takeWhile (·.running)).length := by
  induction envs generalizing cfg st with
  | nil => exact ⟨rfl, rfl, rfl, rfl⟩
  | cons e es ih =>
    cases he : e.running
    · simp [scheduler_loop, he, List.takeWhile_cons, runCycles]
    · have h4 := ih (run_cycle mlA e cfg st).config (run_cycle mlA e cfg st).state
      simp [scheduler_loop, he, List.takeWhile_cons, runCycles,
        h4.1, h4.2.1, h4.2.2.1, h4.2.2.2, runCycles_length]
